import Mathlib

/-!
Verification of the TargetBot audience & metrics synchronization pipeline.

Shallow embedding of the pipeline logic of the `targetbot` Cloudflare worker:
phone-audience batch upload (`facebookApi/audience-update.ts` and the legacy
monolithic `facebookApi.ts`), audience resolution (`facebookApi/audiences.ts`
in its v22 and v19 variants), lookalike derivation (`facebookApi/lookalike.ts`),
insights pagination (`facebookApi/insights.ts`), metrics aggregation and
storage (`optimizationEngine.ts`), and the lookalike orchestration flow
(`audienceManager.ts`).

Remote HTTP exchanges are modeled by oracle functions passed as parameters
(a successful exchange returns the decoded JSON body; a failed exchange is
`none` where the code handles it, and is outside the model where the code
throws).  The Cloudflare KV store is modeled as a function
`String → Option value`.  JavaScript floating-point numbers are modeled as
rationals (`ℚ`); none of the verified properties depends on binary rounding.
-/

/-- A key-value store (Cloudflare KV namespace) holding values of type `β`.
`none` models an absent key. -/
def KVStore (β : Type) : Type := String → Option β

/-- Model of `KVNamespace.put`: overwrite `key` with `v`, leave other keys. -/
def kvPut {β : Type} (store : KVStore β) (key : String) (v : β) : KVStore β :=
  fun k => if k = key then some v else store k

/-- Splitting a list into consecutive slices of at most 10000 elements, in
order: the `for (let i = 0; i < xs.length; i += MAX_BATCH_SIZE)` /
`slice(i, i + MAX_BATCH_SIZE)` loop of `updateCustomAudience`
(`src/facebookApi/audience-update.ts`, `MAX_BATCH_SIZE = 10000`). -/
def chunksOf10000 {α : Type} : List α → List (List α)
  | [] => []
  | x :: xs => ((x :: xs).take 10000) :: chunksOf10000 ((x :: xs).drop 10000)
termination_by xs => xs.length
decreasing_by
  simp only [List.length_drop, List.length_cons]
  omega

/-- Decoded JSON body of a successful `users` upload call
(`UpdateAudienceResponse` in `src/facebookApi/types.ts`); `num_received` and
`num_invalid_entries` are optional fields. -/
structure UpdateAudienceResponse where
  audience_id : String
  num_received : Option Nat
  num_invalid_entries : Option Nat
deriving DecidableEq

namespace AudienceUpdate

/-- Outcome of `updateCustomAudience`: the returned response together with the
ordered list of phone batches sent to the remote `users` endpoint. -/
structure UploadOutcome where
  response : UpdateAudienceResponse
  calls : List (List String)
deriving DecidableEq

/-- Model of `updateCustomAudience` from `src/facebookApi/audience-update.ts`
(v22 module).  `send` is the oracle for one successful
`sendAudienceUpdateRequest` exchange.  When the input exceeds 10000 entries it
is split into consecutive batches, each batch is sent sequentially, and the
`num_received` / `num_invalid_entries` fields are the sums
`results.reduce((sum, r) => sum + (r.num_received || 0), 0)` of the per-batch
responses; otherwise the whole list is sent in one call and that response is
returned as-is. -/
def updateCustomAudience (audienceId : String) (hashedPhones : List String)
    (send : List String → UpdateAudienceResponse) : UploadOutcome :=
  if 10000 < hashedPhones.length then
    let batches := chunksOf10000 hashedPhones
    let results := batches.map send
    { response :=
        { audience_id := audienceId
          num_received :=
            some ((results.map (fun r => r.num_received.getD 0)).sum)
          num_invalid_entries :=
            some ((results.map (fun r => r.num_invalid_entries.getD 0)).sum) }
      calls := batches }
  else
    { response := send hashedPhones, calls := [hashedPhones] }

end AudienceUpdate

/-- One entry of a Custom Audience listing (`CustomAudienceResponse` in
`src/facebookApi/types.ts`), restricted to the fields the pipeline reads. -/
structure CustomAudienceResponse where
  id : String
  name : String
deriving DecidableEq

namespace FacebookApiLegacy

/-- Observable remote effects of the legacy `updateCustomAudience` batch loop
(the monolithic `src/facebookApi.ts`): an upload request for one batch, or the
1000 ms pacing `setTimeout` between batches. -/
inductive UploadEvent
  | upload (batch : List String)
  | delay
deriving DecidableEq

/-- The batch loop of the legacy `updateCustomAudience`
(`for (let i = 0; i < hashedPhones.length; i += BATCH_SIZE)` with
`BATCH_SIZE = 10000`): upload `slice(i, i + BATCH_SIZE)`, then sleep 1000 ms
only when `i + BATCH_SIZE < hashedPhones.length`, i.e. when another batch
follows. -/
def uploadLoop (xs : List String) : List UploadEvent :=
  match xs with
  | [] => []
  | x :: t =>
    if 10000 < (x :: t).length then
      .upload ((x :: t).take 10000) :: .delay :: uploadLoop ((x :: t).drop 10000)
    else
      [.upload (x :: t)]
termination_by xs.length
decreasing_by
  simp only [List.length_drop, List.length_cons]
  omega

/-- The `{ success, message }` result shape returned by the legacy audience
functions and the orchestrator flows. -/
structure SyncResult where
  success : Bool
  message : String
deriving DecidableEq

/-- Model of the legacy `updateCustomAudience` (monolithic `src/facebookApi.ts`):
an empty identifier list is rejected up front with
`{ success: false, message: 'No phone numbers provided' }` and no remote call;
otherwise the batch loop runs and a success result is returned.  `send` is the
oracle for one successful batch upload exchange (used only for the
`successfulBatches` count interpolated into the success message). -/
def updateCustomAudience (hashedPhones : List String)
    (send : List String → UpdateAudienceResponse) :
    SyncResult × List UploadEvent :=
  if hashedPhones.isEmpty then
    ({ success := false, message := "No phone numbers provided" }, [])
  else
    let successfulBatches :=
      ((chunksOf10000 hashedPhones).filter (fun b => (send b).audience_id ≠ "")).length
    ({ success := true
       message := "Updated Custom Audience with " ++ toString hashedPhones.length ++
         " phone numbers (" ++ toString successfulBatches ++ " batches)" },
     uploadLoop hashedPhones)

/-- Observable effects of the v19 `findOrCreateCustomAudience`: the KV cache
read, the remote audience listing call, the remote create call, and KV cache
writes. -/
inductive ResolveEvent
  | cacheGet (key : String)
  | listCall
  | createCall
  | cachePut (key value : String)
deriving DecidableEq

/-- Result of one `findOrCreateCustomAudience` run: the returned audience ID
(or the thrown error), the KV cache state after the run, and the effects
issued, in order. -/
structure ResolveOutcome where
  result : Except String String
  cache : KVStore String
  events : List ResolveEvent

/-- Model of the v19 `findOrCreateCustomAudience` (the variant embedded in
`src/facebookApi/audience-update.ts` and the monolithic `src/facebookApi.ts`):
look up `audience:<name>` in KV and return immediately on a hit; otherwise
list the account's Custom Audiences, take the first entry whose `name` equals
the requested name, cache and return its ID; otherwise create a new audience
(`createResult` is the oracle for the create exchange, `none` when it fails or
returns no ID), cache and return the new ID. -/
def findOrCreateCustomAudience (name : String) (cache : KVStore String)
    (listing : List CustomAudienceResponse) (createResult : Option String) :
    ResolveOutcome :=
  let audienceIdKeyInKV := "audience:" ++ name
  match cache audienceIdKeyInKV with
  | some cachedAudienceId =>
      ⟨.ok cachedAudienceId, cache, [.cacheGet audienceIdKeyInKV]⟩
  | none =>
    match listing.find? (fun audience => audience.name == name) with
    | some existingAudience =>
        ⟨.ok existingAudience.id,
         kvPut cache audienceIdKeyInKV existingAudience.id,
         [.cacheGet audienceIdKeyInKV, .listCall,
          .cachePut audienceIdKeyInKV existingAudience.id]⟩
    | none =>
      match createResult with
      | some newAudienceId =>
        if newAudienceId = "" then
          ⟨.error "Failed to create Custom Audience: no ID returned", cache,
           [.cacheGet audienceIdKeyInKV, .listCall, .createCall]⟩
        else
          ⟨.ok newAudienceId,
           kvPut cache audienceIdKeyInKV newAudienceId,
           [.cacheGet audienceIdKeyInKV, .listCall, .createCall,
            .cachePut audienceIdKeyInKV newAudienceId]⟩
      | none =>
          ⟨.error "Failed to create Custom Audience: no ID returned", cache,
           [.cacheGet audienceIdKeyInKV, .listCall, .createCall]⟩

end FacebookApiLegacy

/-- Model of JavaScript `String.prototype.toLowerCase`: lower-case every
character (written character-wise so that concrete instances evaluate). -/
def toLowerCase (s : String) : String :=
  ⟨s.data.map Char.toLower⟩

namespace Audiences

/-- Model of `findOrCreateCustomAudience` from `src/facebookApi/audiences.ts`
(v22 module): list the account's Custom Audiences, take the first entry whose
name equals the requested name case-insensitively
(`audience.name.toLowerCase() === audienceName.toLowerCase()`), and return its
ID; when nothing matches, create a new audience (`createdId` is the ID the
create exchange returns).  The second component records whether the create
call was issued. -/
def findOrCreateCustomAudience (audienceName : String)
    (listing : List CustomAudienceResponse) (createdId : String) :
    String × Bool :=
  match listing.find?
      (fun audience => toLowerCase audience.name == toLowerCase audienceName) with
  | some foundAudience => (foundAudience.id, false)
  | none => (createdId, true)

end Audiences

namespace Insights

/-- One decoded page of the insights listing: its `data` records (a missing
`data` field is the empty list) and the optional `paging.next` reference. -/
structure InsightsPage (α : Type) where
  data : List α
  next : Option String
deriving DecidableEq

/-- The pagination `while (nextPage)` loop of `getAdInsights`
(`src/facebookApi/insights.ts`): while a next-page reference is present, fetch
it; a non-OK response (`fetchPage = none`) breaks the loop keeping the records
accumulated so far; an OK response appends its records
(`allData = [...allData, ...(nextData.data || [])]`) and continues with its
`paging.next`.  The source loop has no iteration bound; `fuel` bounds the
number of page fetches in the model, and theorems assume enough fuel for the
chain being followed. -/
def collectLoop {α : Type} (fetchPage : String → Option (InsightsPage α)) :
    Nat → Option String → List α → List α
  | _, none, allData => allData
  | 0, some _, allData => allData
  | fuel + 1, some nextPage, allData =>
    match fetchPage nextPage with
    | none => allData
    | some pg => collectLoop fetchPage fuel pg.next (allData ++ pg.data)

/-- Model of `getAdInsights` after the initial request succeeded with
`firstPage`: accumulate the first page's records, then run the pagination
loop from its `paging.next`. -/
def getAdInsights {α : Type} (firstPage : InsightsPage α)
    (fetchPage : String → Option (InsightsPage α)) (fuel : Nat) : List α :=
  collectLoop fetchPage fuel firstPage.next firstPage.data

/-- `FollowsChain fetchPage next pages` means: starting from the pagination
reference `next`, the loop encounters exactly the record lists `pages`, in
order, before stopping — either because a page had no next reference, or
because a fetch returned a non-OK response. -/
inductive FollowsChain {α : Type}
    (fetchPage : String → Option (InsightsPage α)) :
    Option String → List (List α) → Prop
  | stop : FollowsChain fetchPage none []
  | fail (ref : String) :
      fetchPage ref = none → FollowsChain fetchPage (some ref) []
  | page (ref : String) (pg : InsightsPage α) (rest : List (List α)) :
      fetchPage ref = some pg → FollowsChain fetchPage pg.next rest →
      FollowsChain fetchPage (some ref) (pg.data :: rest)

/-- Concrete two-page remote used to instantiate the pagination theorem:
reference `p2` resolves to a final page with records `[3, 4]` and no next
reference; every other reference fails. -/
def twoPageFetch : String → Option (InsightsPage Nat) :=
  fun ref => if ref = "p2" then some ⟨[3, 4], none⟩ else none

end Insights

namespace OptimizationEngine

/-- One entry of a record's `actions` array: its `action_type` and its
`value`, with `none` modeling a missing or unparsable (`parseInt(...) || 0`)
value. -/
structure InsightAction where
  action_type : String
  value : Option Int
deriving DecidableEq

/-- The metric fields of an insight record that `calculateMetricsSummary`
reads; `none` models a missing or unparsable field (`parseFloat`/`parseInt`
yielding `NaN`, defaulted to 0 by `|| 0`). -/
structure InsightMetrics where
  spend : Option ℚ
  impressions : Option Int
  clicks : Option Int
  actions : Option (List InsightAction)
deriving DecidableEq

/-- One processed insight record (`InsightReport` in
`src/facebookApi/types.ts`), with the open metrics map restricted to the
fields the aggregator reads. -/
structure InsightReport where
  id : String
  name : String
  date_start : String
  date_stop : String
  metrics : InsightMetrics
deriving DecidableEq

/-- The conversion-action test of `calculateMetricsSummary`:
`action_type === 'purchase' || 'lead' || 'complete_registration'`. -/
def isConversionAction (action : InsightAction) : Bool :=
  action.action_type == "purchase" || action.action_type == "lead" ||
    action.action_type == "complete_registration"

/-- `spend` contribution of one record: `parseFloat(metrics.spend) || 0`. -/
def spendOfReport (report : InsightReport) : ℚ :=
  report.metrics.spend.getD 0

/-- `impressions` contribution of one record:
`parseInt(metrics.impressions) || 0`. -/
def impressionsOfReport (report : InsightReport) : Int :=
  report.metrics.impressions.getD 0

/-- `clicks` contribution of one record: `parseInt(metrics.clicks) || 0`. -/
def clicksOfReport (report : InsightReport) : Int :=
  report.metrics.clicks.getD 0

/-- Conversion contribution of one record: the value of the first entry of
`metrics.actions` whose type is a conversion type
(`actions.find(...)` then `parseInt(conversions.value) || 0`), 0 when the
array is absent or has no such entry. -/
def conversionOfReport (report : InsightReport) : Int :=
  match report.metrics.actions with
  | none => 0
  | some acts =>
    match acts.find? isConversionAction with
    | none => 0
    | some conversions => conversions.value.getD 0

/-- The summary record built by `calculateMetricsSummary`
(`MetricsStorageItem['summary']` in `src/facebookApi/types.ts`). -/
structure MetricsSummary where
  totalSpend : ℚ
  totalImpressions : Int
  totalClicks : Int
  totalConversions : Int
  avgCTR : ℚ
  avgCPC : ℚ
  avgCPM : ℚ
  avgCPA : ℚ
deriving DecidableEq

/-- One step of the `insights.forEach` accumulation of
`calculateMetricsSummary`: add one record's spend, impressions, clicks and
conversion contribution to the running totals. -/
def summarizeStep (acc : ℚ × Int × Int × Int) (report : InsightReport) :
    ℚ × Int × Int × Int :=
  (acc.1 + spendOfReport report,
   acc.2.1 + impressionsOfReport report,
   acc.2.2.1 + clicksOfReport report,
   acc.2.2.2 + conversionOfReport report)

/-- Model of `calculateMetricsSummary` (`src/optimizationEngine.ts`):
accumulate the four totals over the records, then derive
`avgCTR = (totalClicks / totalImpressions) * 100` when `totalImpressions > 0`
else 0, `avgCPC = totalSpend / totalClicks` when `totalClicks > 0` else 0,
`avgCPM = (totalSpend / totalImpressions) * 1000` when `totalImpressions > 0`
else 0, and `avgCPA = totalSpend / totalConversions` when
`totalConversions > 0` else 0. -/
def calculateMetricsSummary (insights : List InsightReport) : MetricsSummary :=
  let t := insights.foldl summarizeStep (0, 0, 0, 0)
  { totalSpend := t.1
    totalImpressions := t.2.1
    totalClicks := t.2.2.1
    totalConversions := t.2.2.2
    avgCTR := if 0 < t.2.1 then ((t.2.2.1 : ℚ) / (t.2.1 : ℚ)) * 100 else 0
    avgCPC := if 0 < t.2.2.1 then t.1 / (t.2.2.1 : ℚ) else 0
    avgCPM := if 0 < t.2.1 then (t.1 / (t.2.1 : ℚ)) * 1000 else 0
    avgCPA := if 0 < t.2.2.2 then t.1 / (t.2.2.2 : ℚ) else 0 }

/-- First record of the concrete aggregation scenario: spend 10, impressions
100, clicks 5, no actions array. -/
def scenarioReport1 : InsightReport :=
  ⟨"c1", "Campaign 1", "2025-01-01", "2025-01-07",
   ⟨some 10, some 100, some 5, none⟩⟩

/-- Second record of the concrete aggregation scenario: spend 20, impressions
100, clicks 5, one `purchase` action of value 1. -/
def scenarioReport2 : InsightReport :=
  ⟨"c2", "Campaign 2", "2025-01-01", "2025-01-07",
   ⟨some 20, some 100, some 5, some [⟨"purchase", some 1⟩]⟩⟩

/-- One campaign of the campaigns listing (`Campaign` in
`src/facebookApi/types.ts`). -/
structure Campaign where
  id : String
  name : String
  status : String
deriving DecidableEq

/-- The stored metrics snapshot (`MetricsStorageItem` in
`src/facebookApi/types.ts`). -/
structure MetricsStorageItem where
  timestamp : Nat
  insights : List InsightReport
  summary : MetricsSummary
deriving DecidableEq

/-- The JSON-encoded values the metrics flow writes to KV, as a tagged union:
the active-campaign ID list or a metrics snapshot. -/
inductive StoredValue
  | campaignIds (ids : List String)
  | snapshot (item : MetricsStorageItem)
deriving DecidableEq

/-- KV key of the latest metrics snapshot (`KV_KEYS.LAST_METRICS`). -/
def LAST_METRICS : String := "last_metrics"

/-- KV key of the active-campaign ID list (`KV_KEYS.ACTIVE_CAMPAIGNS`). -/
def ACTIVE_CAMPAIGNS : String := "active_campaigns"

/-- Result of one `fetchMetrics` run: the returned `{ success, message, data }`
shape together with the KV store state after the run. -/
structure FetchMetricsOutcome where
  success : Bool
  message : String
  data : Option MetricsStorageItem
  store : KVStore StoredValue

/-- Model of `fetchMetrics` (`src/optimizationEngine.ts`): filter the
campaigns listing to `status === 'ACTIVE'`; with no active campaign, return
success with `'No active campaigns found.'` and no KV write.  Otherwise store
the active IDs under `active_campaigns` and collect insights for them
(`getInsightsFor` is the oracle for `getAdInsights` followed by
`processInsightsData`); with no records, return success with
`'No metrics data available for the active campaigns.'` and no further KV
write.  Otherwise summarize, build the snapshot with the current timestamp,
store it under `last_metrics` and return it. -/
def fetchMetrics (campaigns : List Campaign)
    (getInsightsFor : List String → List InsightReport) (now : Nat)
    (store : KVStore StoredValue) : FetchMetricsOutcome :=
  let activeCampaigns := campaigns.filter (fun campaign => campaign.status == "ACTIVE")
  if activeCampaigns.isEmpty then
    ⟨true, "No active campaigns found.", none, store⟩
  else
    let activeCampaignIds := activeCampaigns.map (fun campaign => campaign.id)
    let store1 := kvPut store ACTIVE_CAMPAIGNS (.campaignIds activeCampaignIds)
    let processedInsights := getInsightsFor activeCampaignIds
    if processedInsights.isEmpty then
      ⟨true, "No metrics data available for the active campaigns.", none, store1⟩
    else
      let summary := calculateMetricsSummary processedInsights
      let metricsData : MetricsStorageItem := ⟨now, processedInsights, summary⟩
      ⟨true,
       "Successfully collected metrics for " ++ toString processedInsights.length ++
         " campaigns.",
       some metricsData,
       kvPut store1 LAST_METRICS (.snapshot metricsData)⟩

/-- Model of `getStoredMetrics` (`src/optimizationEngine.ts`): read
`last_metrics`; an absent key or a value that does not parse as a snapshot is
a failure, otherwise return the stored snapshot. -/
def getStoredMetrics (store : KVStore StoredValue) :
    Bool × Option MetricsStorageItem :=
  match store LAST_METRICS with
  | some (.snapshot metricsData) => (true, some metricsData)
  | _ => (false, none)

end OptimizationEngine

namespace Lookalike

/-- Observable effects of `createLookalikeAudience`: the KV cache read of the
composite lookalike key, the remote create call (tagged with the
`origin_audience_id` it carries), and the KV cache write. -/
inductive LkEvent
  | cacheGet (key : String)
  | remoteCreate (originAudienceId : String)
  | cachePut (key value : String)
deriving DecidableEq

/-- The composite KV key `lookalike:<name>:<country>:<ratio>` of
`createLookalikeAudience` (the numeric ratio is rendered by `toString`; the
source interpolates the JS number). -/
def lookalikeKey (name countrySpec : String) ( ratio : ℚ) : String :=
  "lookalike:" ++ (name ++ (":" ++ (countrySpec ++ (":" ++ toString ratio))))

/-- The validation error thrown by `createLookalikeAudience` for a ratio
outside `[0.01, 0.20]`. -/
def ratioErrorMsg : String :=
  "Ratio must be between 0.01 and 0.20 (1% to 20% of population)"

/-- Model of `createLookalikeAudience` (`src/facebookApi/lookalike.ts`):
first validate `0.01 <= ratio <= 0.20`
(`if (ratio < 0.01 || ratio > 0.20) throw ...`) — a violation produces the
validation error with no effect issued; then look up the composite cache key
and return a cached ID immediately; otherwise issue the remote create call
carrying `origin_audience_id = sourceAudienceId` (`createResult` is the
oracle for the exchange, `none` when it fails), cache and return the new ID. -/
def createLookalikeAudience (sourceAudienceId name countrySpec : String)
    ( ratio : ℚ) (cache : KVStore String) (createResult : Option String) :
    Except String String × List LkEvent :=
  if ratio < 1 / 100 ∨ 1 / 5 < ratio then
    (.error ratioErrorMsg, [])
  else
    let key := lookalikeKey name countrySpec ratio
    match cache key with
    | some cachedLookalikeId => (.ok cachedLookalikeId, [.cacheGet key])
    | none =>
      match createResult with
      | some newLookalikeId =>
        if newLookalikeId = "" then
          (.error "Failed to create Lookalike Audience: no ID returned",
           [.cacheGet key, .remoteCreate sourceAudienceId])
        else
          (.ok newLookalikeId,
           [.cacheGet key, .remoteCreate sourceAudienceId,
            .cachePut key newLookalikeId])
      | none =>
        (.error "Error creating Lookalike audience",
         [.cacheGet key, .remoteCreate sourceAudienceId])

end Lookalike

namespace AudienceManager

/-- Result of one `createPhoneLookalikeAudience` run: the returned
`{ success, message, audienceId }` shape together with the effects of the
lookalike-create call it reached (empty when derivation was never reached). -/
structure LookalikeFlowOutcome where
  success : Bool
  message : String
  audienceId : Option String
  lkEvents : List Lookalike.LkEvent
deriving DecidableEq

/-- The fixed lookalike configuration name of
`createLookalikeAudienceInternal`:
`` `${sourceAudienceName} - Lookalike 1%` ``. -/
def lookalikeConfigName (sourceAudienceName : String) : String :=
  sourceAudienceName ++ " - Lookalike 1%"

/-- The source-not-found failure message of `createPhoneLookalikeAudience`. -/
def sourceNotFoundMsg (sourceAudienceName : String) : String :=
  "Исходная аудитория \"" ++ sourceAudienceName ++
    "\" не найдена. Сначала синхронизируйте телефонную аудиторию."

/-- Model of `createLookalikeAudienceInternal` (`src/audienceManager.ts`):
derive a lookalike from `sourceAudienceId` with the fixed configuration
(name `<source> - Lookalike 1%`, country `RU`, ratio 0.01); a thrown error is
caught by the flow's outer handler and reported as a failure result. -/
def createLookalikeAudienceInternal (cache : KVStore String)
    (sourceAudienceId sourceAudienceName : String)
    (lkCreateResult : Option String) : LookalikeFlowOutcome :=
  let r := Lookalike.createLookalikeAudience sourceAudienceId
    (lookalikeConfigName sourceAudienceName) "RU" (1 / 100) cache lkCreateResult
  match r.1 with
  | .ok lookalikeId =>
      ⟨true,
       "Создана Lookalike аудитория \"" ++ lookalikeConfigName sourceAudienceName ++
         "\" на основе \"" ++ sourceAudienceName ++ "\"",
       some lookalikeId, r.2⟩
  | .error e => ⟨false, e, none, r.2⟩

/-- Model of `createPhoneLookalikeAudience` (`src/audienceManager.ts`): read
`audience:<name>` from KV; on a hit, derive the lookalike from the cached ID.
On a miss, fall back to `findOrCreateCustomAudience` with an empty
description; when it yields an ID, cache it under the same key and derive the
lookalike from it; when it fails (or yields a falsy ID), return the
source-not-found failure without deriving. -/
def createPhoneLookalikeAudience (sourceAudienceName : String)
    (cache : KVStore String) (listing : List CustomAudienceResponse)
    (createResult : Option String) (lkCreateResult : Option String) :
    LookalikeFlowOutcome :=
  let sourceAudienceIdKey := "audience:" ++ sourceAudienceName
  match cache sourceAudienceIdKey with
  | some sourceAudienceId =>
      createLookalikeAudienceInternal cache sourceAudienceId sourceAudienceName
        lkCreateResult
  | none =>
    let r := FacebookApiLegacy.findOrCreateCustomAudience sourceAudienceName
      cache listing createResult
    match r.result with
    | .ok audienceId =>
      if audienceId = "" then
        ⟨false, sourceNotFoundMsg sourceAudienceName, none, []⟩
      else
        createLookalikeAudienceInternal
          (kvPut r.cache sourceAudienceIdKey audienceId)
          audienceId sourceAudienceName lkCreateResult
    | .error _ => ⟨false, sourceNotFoundMsg sourceAudienceName, none, []⟩

end AudienceManager

/-! ## Shared lemmas about the batch-splitting loop -/

/-- Concatenating the batches produced by the splitting loop restores the
input, so the split is into consecutive, order-preserving slices. -/
theorem chunksOf10000_flatten {α : Type} (xs : List α) :
    (chunksOf10000 xs).flatten = xs := by
  have H : ∀ n (ys : List α), ys.length ≤ n → (chunksOf10000 ys).flatten = ys := by
    intro n
    induction n with
    | zero =>
      intro ys h
      match ys with
      | [] => simp [chunksOf10000]
      | y :: t => simp at h
    | succ n ih =>
      intro ys h
      match ys with
      | [] => simp [chunksOf10000]
      | y :: t =>
        simp only [List.length_cons] at h
        rw [chunksOf10000]
        simp only [List.flatten_cons]
        rw [ih ((y :: t).drop 10000)
          (by simp only [List.length_drop, List.length_cons]; omega)]
        exact List.take_append_drop 10000 (y :: t)
  exact H xs.length xs le_rfl

/-- The splitting loop produces `⌈length / 10000⌉` batches, written as
`(length + 9999) / 10000` in natural-number arithmetic. -/
theorem chunksOf10000_length {α : Type} (xs : List α) :
    (chunksOf10000 xs).length = (xs.length + 9999) / 10000 := by
  have H : ∀ n (ys : List α), ys.length ≤ n →
      (chunksOf10000 ys).length = (ys.length + 9999) / 10000 := by
    intro n
    induction n with
    | zero =>
      intro ys h
      match ys with
      | [] => simp [chunksOf10000]
      | y :: t => simp at h
    | succ n ih =>
      intro ys h
      match ys with
      | [] => simp [chunksOf10000]
      | y :: t =>
        simp only [List.length_cons] at h
        rw [chunksOf10000]
        simp only [List.length_cons]
        rw [ih ((y :: t).drop 10000)
          (by simp only [List.length_drop, List.length_cons]; omega)]
        simp only [List.length_drop, List.length_cons]
        omega
  exact H xs.length xs le_rfl

/-- Every batch produced by the splitting loop has at most 10000 elements. -/
theorem chunksOf10000_size_le {α : Type} (xs : List α) :
    ∀ c ∈ chunksOf10000 xs, c.length ≤ 10000 := by
  have H : ∀ n (ys : List α), ys.length ≤ n →
      ∀ c ∈ chunksOf10000 ys, c.length ≤ 10000 := by
    intro n
    induction n with
    | zero =>
      intro ys h
      match ys with
      | [] => simp [chunksOf10000]
      | y :: t => simp at h
    | succ n ih =>
      intro ys h
      match ys with
      | [] => simp [chunksOf10000]
      | y :: t =>
        simp only [List.length_cons] at h
        rw [chunksOf10000]
        intro c hc
        rw [List.mem_cons] at hc
        rcases hc with hc | hc
        · subst hc
          simp
        · exact ih ((y :: t).drop 10000)
            (by simp only [List.length_drop, List.length_cons]; omega) c hc
  exact H xs.length xs le_rfl

/-! ## C1: chunked upload of oversized identifier lists -/

/-- Claim C1: for more than 10000 hashed identifiers, `updateCustomAudience`
splits the input into consecutive order-preserving chunks of at most 10000
elements, issues one upload call per chunk — `⌈N / 10000⌉` calls in total —
and returns totals equal to the sums of the per-chunk `num_received` and
`num_invalid_entries` counts. -/
theorem updateCustomAudience_chunked_totals (audienceId : String)
    (phones : List String) (send : List String → UpdateAudienceResponse)
    (h : 10000 < phones.length) :
    (AudienceUpdate.updateCustomAudience audienceId phones send).calls.flatten = phones
    ∧ (∀ c ∈ (AudienceUpdate.updateCustomAudience audienceId phones send).calls,
        c.length ≤ 10000)
    ∧ (AudienceUpdate.updateCustomAudience audienceId phones send).calls.length =
        (phones.length + 9999) / 10000
    ∧ (AudienceUpdate.updateCustomAudience audienceId phones send).response.num_received =
        some (((AudienceUpdate.updateCustomAudience audienceId phones send).calls.map
          (fun c => (send c).num_received.getD 0)).sum)
    ∧ (AudienceUpdate.updateCustomAudience audienceId phones send).response.num_invalid_entries =
        some (((AudienceUpdate.updateCustomAudience audienceId phones send).calls.map
          (fun c => (send c).num_invalid_entries.getD 0)).sum) := by
  unfold AudienceUpdate.updateCustomAudience
  rw [if_pos h]
  refine ⟨chunksOf10000_flatten phones, chunksOf10000_size_le phones,
    chunksOf10000_length phones, ?_, ?_⟩
  · simp only [List.map_map]
    rfl
  · simp only [List.map_map]
    rfl

/-- Witness for C1 at a concrete 10001-element input: the hypothesis holds and
the upload is split into 2 chunk calls. -/
theorem updateCustomAudience_chunked_totals_witness :
    10000 < (List.replicate 10001 "a").length
    ∧ (AudienceUpdate.updateCustomAudience "aud" (List.replicate 10001 "a")
        (fun b => ⟨"aud", some b.length, some 0⟩)).calls.length = 2 := by
  have h : 10000 < (List.replicate 10001 "a").length := by
    rw [List.length_replicate]
    norm_num
  refine ⟨h, ?_⟩
  have H := updateCustomAudience_chunked_totals "aud" (List.replicate 10001 "a")
    (fun b => ⟨"aud", some b.length, some 0⟩) h
  rw [H.2.2.1, List.length_replicate]

/-! ## C2: insights pagination -/

/-- The pagination loop run on a chain of pages appends, in order, exactly the
records of the pages encountered before the chain stops (no next reference, or
a failed fetch), keeping everything accumulated so far. -/
theorem collectLoop_chain {α : Type}
    (fetchPage : String → Option (Insights.InsightsPage α))
    (pages : List (List α)) (next : Option String)
    (hchain : Insights.FollowsChain fetchPage next pages) :
    ∀ (fuel : Nat) (acc : List α), pages.length ≤ fuel →
      Insights.collectLoop fetchPage fuel next acc = acc ++ pages.flatten := by
  induction hchain with
  | stop =>
    intro fuel acc _
    cases fuel <;> simp [Insights.collectLoop]
  | fail ref hfail =>
    intro fuel acc _
    cases fuel with
    | zero => simp [Insights.collectLoop]
    | succ n => simp [Insights.collectLoop, hfail]
  | page ref pg rest hfetch hrest ih =>
    intro fuel acc hfuel
    cases fuel with
    | zero => simp at hfuel
    | succ n =>
      rw [Insights.collectLoop]
      simp only [hfetch]
      rw [ih n (acc ++ pg.data) (by simp only [List.length_cons] at hfuel; omega)]
      simp [List.append_assoc]

/-- Claim C2: `getAdInsights` follows the pagination cursor, appending each
fetched page's records in order to the accumulated result; it stops when a
page carries no next reference, and a non-OK page fetch stops accumulation
while still returning everything fetched so far.  `pages` is the list of
record lists the cursor chain yields before it stops (by exhaustion or by a
failed fetch), and the result is the first page's records followed by all of
them in order. -/
theorem getAdInsights_pagination {α : Type}
    (fetchPage : String → Option (Insights.InsightsPage α))
    (firstPage : Insights.InsightsPage α) (pages : List (List α)) (fuel : Nat)
    (hchain : Insights.FollowsChain fetchPage firstPage.next pages)
    (hfuel : pages.length ≤ fuel) :
    Insights.getAdInsights firstPage fetchPage fuel =
      firstPage.data ++ pages.flatten := by
  unfold Insights.getAdInsights
  exact collectLoop_chain fetchPage pages firstPage.next hchain fuel
    firstPage.data hfuel

/-- Witness for C2 at the concrete two-page scenario: a first page with
records `[1, 2]` and a next reference to `p2`, whose page has records `[3, 4]`
and no next reference, collects to the in-order concatenation
`[1, 2, 3, 4]`. -/
theorem getAdInsights_pagination_witness :
    Insights.FollowsChain Insights.twoPageFetch (some "p2") [[3, 4]]
    ∧ Insights.getAdInsights ⟨[1, 2], some "p2"⟩ Insights.twoPageFetch 1 =
        [1, 2, 3, 4] := by
  have hfetch : Insights.twoPageFetch "p2" =
      some (⟨[3, 4], none⟩ : Insights.InsightsPage Nat) := rfl
  have hchain : Insights.FollowsChain Insights.twoPageFetch (some "p2") [[3, 4]] :=
    Insights.FollowsChain.page "p2" ⟨[3, 4], none⟩ [] hfetch
      Insights.FollowsChain.stop
  refine ⟨hchain, ?_⟩
  have H := getAdInsights_pagination Insights.twoPageFetch
    ⟨[1, 2], some "p2"⟩ [[3, 4]] 1 hchain (by norm_num)
  rw [H]
  rfl

/-! ## C3: metrics aggregation -/

/-- The `forEach` accumulation of `calculateMetricsSummary` computes, from any
starting totals, the starting totals plus the per-record sums of spend,
impressions, clicks and conversion contributions. -/
theorem summarize_foldl_totals (insights : List OptimizationEngine.InsightReport) :
    ∀ (a : ℚ) (b c d : Int),
      insights.foldl OptimizationEngine.summarizeStep (a, b, c, d) =
        (a + (insights.map OptimizationEngine.spendOfReport).sum,
         b + (insights.map OptimizationEngine.impressionsOfReport).sum,
         c + (insights.map OptimizationEngine.clicksOfReport).sum,
         d + (insights.map OptimizationEngine.conversionOfReport).sum) := by
  induction insights with
  | nil =>
    intro a b c d
    simp
  | cons r t ih =>
    intro a b c d
    simp only [List.foldl_cons, List.map_cons, List.sum_cons]
    rw [show OptimizationEngine.summarizeStep (a, b, c, d) r =
      (a + OptimizationEngine.spendOfReport r,
       b + OptimizationEngine.impressionsOfReport r,
       c + OptimizationEngine.clicksOfReport r,
       d + OptimizationEngine.conversionOfReport r) from rfl]
    rw [ih]
    simp only [Prod.mk.injEq]
    refine ⟨by ring, by ring, by ring, by ring⟩

/-- Claim C3: for every record list, `calculateMetricsSummary` computes
`totalSpend`, `totalImpressions`, `totalClicks` as sums with missing or
unparsable values contributing 0, `totalConversions` as the sum of each
record's first conversion-typed action value, and the derived metrics with
their zero-denominator guards; on the concrete two-record scenario
(spend 10 and 20, impressions 100 and 100, clicks 5 and 5, one conversion of
value 1) it yields totals 30, 200, 10, 1 and averages CTR 5, CPC 3, CPM 150,
CPA 30. -/
theorem calculateMetricsSummary_spec
    (insights : List OptimizationEngine.InsightReport) :
    (OptimizationEngine.calculateMetricsSummary insights).totalSpend =
        (insights.map OptimizationEngine.spendOfReport).sum
    ∧ (OptimizationEngine.calculateMetricsSummary insights).totalImpressions =
        (insights.map OptimizationEngine.impressionsOfReport).sum
    ∧ (OptimizationEngine.calculateMetricsSummary insights).totalClicks =
        (insights.map OptimizationEngine.clicksOfReport).sum
    ∧ (OptimizationEngine.calculateMetricsSummary insights).totalConversions =
        (insights.map OptimizationEngine.conversionOfReport).sum
    ∧ (OptimizationEngine.calculateMetricsSummary insights).avgCTR =
        (if 0 < (OptimizationEngine.calculateMetricsSummary insights).totalImpressions
         then (((OptimizationEngine.calculateMetricsSummary insights).totalClicks : ℚ) /
           ((OptimizationEngine.calculateMetricsSummary insights).totalImpressions : ℚ)) * 100
         else 0)
    ∧ (OptimizationEngine.calculateMetricsSummary insights).avgCPC =
        (if 0 < (OptimizationEngine.calculateMetricsSummary insights).totalClicks
         then (OptimizationEngine.calculateMetricsSummary insights).totalSpend /
           ((OptimizationEngine.calculateMetricsSummary insights).totalClicks : ℚ)
         else 0)
    ∧ (OptimizationEngine.calculateMetricsSummary insights).avgCPM =
        (if 0 < (OptimizationEngine.calculateMetricsSummary insights).totalImpressions
         then ((OptimizationEngine.calculateMetricsSummary insights).totalSpend /
           ((OptimizationEngine.calculateMetricsSummary insights).totalImpressions : ℚ)) * 1000
         else 0)
    ∧ (OptimizationEngine.calculateMetricsSummary insights).avgCPA =
        (if 0 < (OptimizationEngine.calculateMetricsSummary insights).totalConversions
         then (OptimizationEngine.calculateMetricsSummary insights).totalSpend /
           ((OptimizationEngine.calculateMetricsSummary insights).totalConversions : ℚ)
         else 0)
    ∧ OptimizationEngine.calculateMetricsSummary
        [OptimizationEngine.scenarioReport1, OptimizationEngine.scenarioReport2] =
        ⟨30, 200, 10, 1, 5, 3, 150, 30⟩ := by
  have htot := summarize_foldl_totals insights 0 0 0 0
  refine ⟨?_, ?_, ?_, ?_, rfl, rfl, rfl, rfl, ?_⟩
  · show (insights.foldl OptimizationEngine.summarizeStep (0, 0, 0, 0)).1 = _
    rw [htot]
    simp
  · show (insights.foldl OptimizationEngine.summarizeStep (0, 0, 0, 0)).2.1 = _
    rw [htot]
    simp
  · show (insights.foldl OptimizationEngine.summarizeStep (0, 0, 0, 0)).2.2.1 = _
    rw [htot]
    simp
  · show (insights.foldl OptimizationEngine.summarizeStep (0, 0, 0, 0)).2.2.2 = _
    rw [htot]
    simp
  · simp only [OptimizationEngine.calculateMetricsSummary, List.foldl_cons,
      List.foldl_nil, OptimizationEngine.summarizeStep,
      OptimizationEngine.spendOfReport, OptimizationEngine.impressionsOfReport,
      OptimizationEngine.clicksOfReport, OptimizationEngine.conversionOfReport,
      OptimizationEngine.scenarioReport1, OptimizationEngine.scenarioReport2,
      Option.getD, OptimizationEngine.MetricsSummary.mk.injEq]
    rw [show List.find? OptimizationEngine.isConversionAction
      [⟨"purchase", some 1⟩] = some ⟨"purchase", some 1⟩ from rfl]
    norm_num

/-! ## C4: lookalike ratio validation -/

/-- Claim C4: `createLookalikeAudience` rejects every ratio outside
`[0.01, 0.20]` with the validation error before issuing any effect — no cache
read and no remote call — and for any ratio inside the range (the boundaries
included) it proceeds past validation, its first effect being the cache
read. -/
theorem createLookalikeAudience_ratio_validation
    (sourceAudienceId name countrySpec : String) ( ratio : ℚ)
    (cache : KVStore String) (createResult : Option String) :
    ((ratio < 1 / 100 ∨ 1 / 5 < ratio) →
      (Lookalike.createLookalikeAudience sourceAudienceId name countrySpec
        ratio cache createResult).1 = .error Lookalike.ratioErrorMsg
      ∧ (Lookalike.createLookalikeAudience sourceAudienceId name countrySpec
        ratio cache createResult).2 = [])
    ∧ (1 / 100 ≤ ratio → ratio ≤ 1 / 5 →
      (Lookalike.createLookalikeAudience sourceAudienceId name countrySpec
        ratio cache createResult).2.head? =
        some (.cacheGet (Lookalike.lookalikeKey name countrySpec ratio))) := by
  constructor
  · intro h
    unfold Lookalike.createLookalikeAudience
    rw [if_pos h]
    exact ⟨rfl, rfl⟩
  · intro h1 h2
    unfold Lookalike.createLookalikeAudience
    rw [if_neg (by push_neg; exact ⟨h1, h2⟩)]
    cases hc : cache (Lookalike.lookalikeKey name countrySpec ratio) with
    | some cachedId => simp [hc]
    | none =>
      simp only [hc]
      cases createResult with
      | none => simp
      | some newId =>
        by_cases hz : newId = ""
        · simp [hz]
        · simp [hz]

/-- Witness for C4: ratio 0.005 (= 1/200) and ratio 0.25 (= 1/4) are rejected
with the validation error and no effect; boundary ratios 0.01 and 0.20 pass
validation, the first effect being the cache read. -/
theorem createLookalikeAudience_ratio_validation_witness :
    ((Lookalike.createLookalikeAudience "src" "LAL" "RU" (1 / 200)
        (fun _ => none) (some "lk1")).1 = .error Lookalike.ratioErrorMsg
      ∧ (Lookalike.createLookalikeAudience "src" "LAL" "RU" (1 / 200)
        (fun _ => none) (some "lk1")).2 = [])
    ∧ ((Lookalike.createLookalikeAudience "src" "LAL" "RU" (1 / 4)
        (fun _ => none) (some "lk1")).1 = .error Lookalike.ratioErrorMsg
      ∧ (Lookalike.createLookalikeAudience "src" "LAL" "RU" (1 / 4)
        (fun _ => none) (some "lk1")).2 = [])
    ∧ (Lookalike.createLookalikeAudience "src" "LAL" "RU" (1 / 100)
        (fun _ => none) (some "lk1")).2.head? =
        some (.cacheGet (Lookalike.lookalikeKey "LAL" "RU" (1 / 100)))
    ∧ (Lookalike.createLookalikeAudience "src" "LAL" "RU" (1 / 5)
        (fun _ => none) (some "lk1")).2.head? =
        some (.cacheGet (Lookalike.lookalikeKey "LAL" "RU" (1 / 5))) := by
  refine ⟨?_, ?_, ?_, ?_⟩
  · exact (createLookalikeAudience_ratio_validation "src" "LAL" "RU" (1 / 200)
      (fun _ => none) (some "lk1")).1 (by norm_num)
  · exact (createLookalikeAudience_ratio_validation "src" "LAL" "RU" (1 / 4)
      (fun _ => none) (some "lk1")).1 (by norm_num)
  · exact (createLookalikeAudience_ratio_validation "src" "LAL" "RU" (1 / 100)
      (fun _ => none) (some "lk1")).2 (by norm_num) (by norm_num)
  · exact (createLookalikeAudience_ratio_validation "src" "LAL" "RU" (1 / 5)
      (fun _ => none) (some "lk1")).2 (by norm_num) (by norm_num)

/-! ## C5: case-insensitive first-match resolution -/

/-- Claim C5: when the listing has an entry whose name equals the requested
name case-insensitively, `findOrCreateCustomAudience` (v22 audiences module)
returns the ID of the first such entry in listing order, without issuing a
create call.  (This variant consults no cache, so the behavior holds in
particular whenever the cache has no entry for the name.) -/
theorem findOrCreateCustomAudience_ci_first_match (audienceName : String)
    (listing : List CustomAudienceResponse) (createdId : String)
    (i : Nat) (hi : i < listing.length)
    (hmatch : toLowerCase (listing[i]).name = toLowerCase audienceName)
    (hfirst : ∀ j (hj : j < i),
      ¬(toLowerCase (listing.get ⟨j, Nat.lt_trans hj hi⟩).name = toLowerCase audienceName)) :
    Audiences.findOrCreateCustomAudience audienceName listing createdId =
      ((listing[i]).id, false) := by
  have hf : listing.find?
      (fun audience => toLowerCase audience.name == toLowerCase audienceName) =
      some listing[i] := by
    rw [List.find?_eq_some_iff_getElem]
    refine ⟨by simpa using hmatch, i, hi, rfl, ?_⟩
    intro j hj
    simpa using hfirst j hj
  unfold Audiences.findOrCreateCustomAudience
  rw [hf]

/-- Witness for C5: with the listing `[{a1, "AB"}, {a2, "ab"}]` and requested
name `aB`, the first case-insensitive match `a1` wins and no create call is
issued. -/
theorem findOrCreateCustomAudience_ci_first_match_witness :
    (toLowerCase "AB" = toLowerCase "aB")
    ∧ Audiences.findOrCreateCustomAudience "aB"
        [⟨"a1", "AB"⟩, ⟨"a2", "ab"⟩] "new" = ("a1", false) := by
  refine ⟨by decide, ?_⟩
  exact findOrCreateCustomAudience_ci_first_match "aB"
    [⟨"a1", "AB"⟩, ⟨"a2", "ab"⟩] "new" 0 (by norm_num) (by decide)
    (fun j hj => absurd hj (Nat.not_lt_zero j))

/-! ## C6: pacing between consecutive batches -/

/-- Claim C6: the legacy upload's event trace is exactly the batch uploads in
order with one pacing delay interspersed between each pair of consecutive
uploads — so a single batch is uploaded with no delay, and with several
batches a delay occurs exactly between batch N and batch N+1, never before
the first upload and never after the last. -/
theorem uploadLoop_intersperse_delay (xs : List String) :
    FacebookApiLegacy.uploadLoop xs =
      List.intersperse FacebookApiLegacy.UploadEvent.delay
        ((chunksOf10000 xs).map FacebookApiLegacy.UploadEvent.upload) := by
  have H : ∀ n (ys : List String), ys.length ≤ n →
      FacebookApiLegacy.uploadLoop ys =
        List.intersperse FacebookApiLegacy.UploadEvent.delay
          ((chunksOf10000 ys).map FacebookApiLegacy.UploadEvent.upload) := by
    intro n
    induction n with
    | zero =>
      intro ys h
      match ys with
      | [] => simp [FacebookApiLegacy.uploadLoop, chunksOf10000]
      | y :: t => simp at h
    | succ n ih =>
      intro ys h
      match ys with
      | [] => simp [FacebookApiLegacy.uploadLoop, chunksOf10000]
      | y :: t =>
        simp only [List.length_cons] at h
        rw [FacebookApiLegacy.uploadLoop, chunksOf10000]
        by_cases hlen : 10000 < (y :: t).length
        · rw [if_pos hlen]
          have hdrop : ((y :: t).drop 10000).length ≤ n := by
            simp only [List.length_drop, List.length_cons]
            omega
          rw [ih ((y :: t).drop 10000) hdrop]
          cases hd : (y :: t).drop 10000 with
          | nil =>
            exfalso
            have := congrArg List.length hd
            simp only [List.length_drop, List.length_cons] at this
            simp only [List.length_cons] at hlen
            simp at this
            omega
          | cons z u =>
            rw [show chunksOf10000 (z :: u) =
              ((z :: u).take 10000) :: chunksOf10000 ((z :: u).drop 10000) from
              by rw [chunksOf10000]]
            simp only [List.map_cons]
            rw [List.intersperse_cons_cons]
        · rw [if_neg hlen]
          have hle : (y :: t).length ≤ 10000 := by omega
          rw [List.drop_eq_nil_of_le hle, List.take_of_length_le hle, chunksOf10000]
          simp [List.intersperse_singleton]
  exact H xs.length xs le_rfl

/-! ## C9: empty identifier set is rejected with no remote call -/

/-- Claim C9: calling the legacy `updateCustomAudience` with an empty
hashed-identifier list reports a validation failure
(`success: false`, `'No phone numbers provided'`) and issues no remote
call (empty event trace), for every upload oracle. -/
theorem updateCustomAudience_empty_rejected
    (send : List String → UpdateAudienceResponse) :
    (FacebookApiLegacy.updateCustomAudience [] send).1 =
      ⟨false, "No phone numbers provided"⟩
    ∧ (FacebookApiLegacy.updateCustomAudience [] send).2 = [] := by
  constructor <;> rfl

/-! ## C7: idempotent resolution through the cache -/

/-- Claim C7: whenever the v19 `findOrCreateCustomAudience` returns an
audience ID — from the cache, the remote listing, or a create call — that ID
is stored under `audience:<name>` in the cache it returns; consequently a
second call on the resulting cache (with any remote state) returns the same
ID immediately from the cache, issuing no listing and no create call; and a
cache hit always returns the cached ID with the cache read as its only
effect. -/
theorem findOrCreateCustomAudience_idempotent (name : String)
    (cache : KVStore String) (listing listing2 : List CustomAudienceResponse)
    (createResult createResult2 : Option String) (audienceId : String)
    (hok : (FacebookApiLegacy.findOrCreateCustomAudience name cache listing
      createResult).result = .ok audienceId) :
    (FacebookApiLegacy.findOrCreateCustomAudience name cache listing
        createResult).cache ("audience:" ++ name) = some audienceId
    ∧ (FacebookApiLegacy.findOrCreateCustomAudience name
        (FacebookApiLegacy.findOrCreateCustomAudience name cache listing
          createResult).cache listing2 createResult2).result = .ok audienceId
    ∧ (FacebookApiLegacy.findOrCreateCustomAudience name
        (FacebookApiLegacy.findOrCreateCustomAudience name cache listing
          createResult).cache listing2 createResult2).events =
        [.cacheGet ("audience:" ++ name)]
    ∧ (∀ cachedId, cache ("audience:" ++ name) = some cachedId →
        (FacebookApiLegacy.findOrCreateCustomAudience name cache listing
          createResult).result = .ok cachedId
        ∧ (FacebookApiLegacy.findOrCreateCustomAudience name cache listing
          createResult).events = [.cacheGet ("audience:" ++ name)]) := by
  have hcacheAfter : (FacebookApiLegacy.findOrCreateCustomAudience name cache
      listing createResult).cache ("audience:" ++ name) = some audienceId := by
    unfold FacebookApiLegacy.findOrCreateCustomAudience at hok ⊢
    cases hc : cache ("audience:" ++ name) with
    | some cachedId =>
      simp only [hc] at hok ⊢
      injection hok with h
      rw [h]
    | none =>
      cases hfind : listing.find? (fun audience => audience.name == name) with
      | some found =>
        simp only [hc, hfind] at hok ⊢
        injection hok with h
        simp [kvPut, h]
      | none =>
        cases createResult with
        | none => simp [hc, hfind] at hok
        | some newId =>
          by_cases hz : newId = ""
          · simp [hc, hfind, hz] at hok
          · simp only [hc, hfind, if_neg hz] at hok ⊢
            injection hok with h
            simp [kvPut, h]
  refine ⟨hcacheAfter, ?_, ?_, ?_⟩
  · generalize hC : (FacebookApiLegacy.findOrCreateCustomAudience name cache
      listing createResult).cache = cache2 at hcacheAfter ⊢
    unfold FacebookApiLegacy.findOrCreateCustomAudience
    simp only [hcacheAfter]
  · generalize hC : (FacebookApiLegacy.findOrCreateCustomAudience name cache
      listing createResult).cache = cache2 at hcacheAfter ⊢
    unfold FacebookApiLegacy.findOrCreateCustomAudience
    simp only [hcacheAfter]
  · intro cachedId hc
    unfold FacebookApiLegacy.findOrCreateCustomAudience
    simp [hc]

/-- Witness for C7 at a concrete input: with an empty cache, empty listing and
a create call returning `X`, the first call returns `X`, stores it under
`audience:Phone Audience`, and the second call returns `X` again with only
the cache read as effect. -/
theorem findOrCreateCustomAudience_idempotent_witness :
    (FacebookApiLegacy.findOrCreateCustomAudience "Phone Audience"
      (fun _ => none) [] (some "X")).result = .ok "X"
    ∧ (FacebookApiLegacy.findOrCreateCustomAudience "Phone Audience"
        (FacebookApiLegacy.findOrCreateCustomAudience "Phone Audience"
          (fun _ => none) [] (some "X")).cache [] none).result = .ok "X"
    ∧ (FacebookApiLegacy.findOrCreateCustomAudience "Phone Audience"
        (FacebookApiLegacy.findOrCreateCustomAudience "Phone Audience"
          (fun _ => none) [] (some "X")).cache [] none).events =
        [.cacheGet ("audience:" ++ "Phone Audience")] := by
  have hok : (FacebookApiLegacy.findOrCreateCustomAudience "Phone Audience"
      (fun _ => none) [] (some "X")).result = .ok "X" := rfl
  have H := findOrCreateCustomAudience_idempotent "Phone Audience"
    (fun _ => none) [] [] (some "X") none "X" hok
  exact ⟨hok, H.2.1, H.2.2.1⟩

/-! ## C8: empty metrics runs leave the snapshot untouched -/

/-- Reading the stored snapshot depends only on the `last_metrics` key. -/
theorem getStoredMetrics_congr
    (store1 store2 : KVStore OptimizationEngine.StoredValue)
    (h : store1 OptimizationEngine.LAST_METRICS =
      store2 OptimizationEngine.LAST_METRICS) :
    OptimizationEngine.getStoredMetrics store1 =
      OptimizationEngine.getStoredMetrics store2 := by
  unfold OptimizationEngine.getStoredMetrics
  rw [h]

/-- Claim C8: when the metrics flow finds zero active campaigns it returns
success with the explanatory message and leaves the whole store untouched;
when it finds active campaigns but zero insight records it returns success
with the explanatory message and performs no write to `last_metrics`; in both
cases a subsequent `getStoredMetrics` read returns exactly what it returned
before the run. -/
theorem fetchMetrics_empty_no_snapshot_write
    (campaigns : List OptimizationEngine.Campaign)
    (getInsightsFor : List String → List OptimizationEngine.InsightReport)
    (now : Nat) (store : KVStore OptimizationEngine.StoredValue) :
    ((campaigns.filter (fun campaign => campaign.status == "ACTIVE")).isEmpty = true →
      (OptimizationEngine.fetchMetrics campaigns getInsightsFor now store).success = true
      ∧ (OptimizationEngine.fetchMetrics campaigns getInsightsFor now store).message =
          "No active campaigns found."
      ∧ (OptimizationEngine.fetchMetrics campaigns getInsightsFor now store).store = store
      ∧ OptimizationEngine.getStoredMetrics
          (OptimizationEngine.fetchMetrics campaigns getInsightsFor now store).store =
          OptimizationEngine.getStoredMetrics store)
    ∧ ((campaigns.filter (fun campaign => campaign.status == "ACTIVE")).isEmpty = false →
      getInsightsFor ((campaigns.filter
        (fun campaign => campaign.status == "ACTIVE")).map
          (fun campaign => campaign.id)) = [] →
      (OptimizationEngine.fetchMetrics campaigns getInsightsFor now store).success = true
      ∧ (OptimizationEngine.fetchMetrics campaigns getInsightsFor now store).message =
          "No metrics data available for the active campaigns."
      ∧ (OptimizationEngine.fetchMetrics campaigns getInsightsFor now store).store
          OptimizationEngine.LAST_METRICS = store OptimizationEngine.LAST_METRICS
      ∧ OptimizationEngine.getStoredMetrics
          (OptimizationEngine.fetchMetrics campaigns getInsightsFor now store).store =
          OptimizationEngine.getStoredMetrics store) := by
  constructor
  · intro h
    unfold OptimizationEngine.fetchMetrics
    rw [if_pos h]
    exact ⟨rfl, rfl, rfl, rfl⟩
  · intro h h2
    unfold OptimizationEngine.fetchMetrics
    rw [if_neg (by rw [h]; simp)]
    simp only [h2, List.isEmpty_nil, if_true]
    have hkey : kvPut store OptimizationEngine.ACTIVE_CAMPAIGNS
        (.campaignIds ((campaigns.filter
          (fun campaign => campaign.status == "ACTIVE")).map
            (fun campaign => campaign.id)))
        OptimizationEngine.LAST_METRICS = store OptimizationEngine.LAST_METRICS := by
      unfold kvPut OptimizationEngine.LAST_METRICS OptimizationEngine.ACTIVE_CAMPAIGNS
      rw [if_neg (by decide)]
    exact ⟨trivial, trivial, hkey, getStoredMetrics_congr _ _ hkey⟩

/-- Witness for C8 on concrete runs against a store holding a prior snapshot:
a run finding only a paused campaign, and a run finding an active campaign but
no insight records, both succeed and leave the prior snapshot readable
unchanged. -/
theorem fetchMetrics_empty_no_snapshot_write_witness :
    (OptimizationEngine.fetchMetrics [⟨"1", "C", "PAUSED"⟩] (fun _ => [])
      7 (kvPut (fun _ => none) OptimizationEngine.LAST_METRICS
        (.snapshot ⟨0, [], OptimizationEngine.calculateMetricsSummary []⟩))).success = true
    ∧ OptimizationEngine.getStoredMetrics
        (OptimizationEngine.fetchMetrics [⟨"1", "C", "PAUSED"⟩] (fun _ => [])
          7 (kvPut (fun _ => none) OptimizationEngine.LAST_METRICS
            (.snapshot ⟨0, [], OptimizationEngine.calculateMetricsSummary []⟩))).store =
        (true, some ⟨0, [], OptimizationEngine.calculateMetricsSummary []⟩)
    ∧ (OptimizationEngine.fetchMetrics [⟨"2", "D", "ACTIVE"⟩] (fun _ => [])
      7 (kvPut (fun _ => none) OptimizationEngine.LAST_METRICS
        (.snapshot ⟨0, [], OptimizationEngine.calculateMetricsSummary []⟩))).success = true
    ∧ OptimizationEngine.getStoredMetrics
        (OptimizationEngine.fetchMetrics [⟨"2", "D", "ACTIVE"⟩] (fun _ => [])
          7 (kvPut (fun _ => none) OptimizationEngine.LAST_METRICS
            (.snapshot ⟨0, [], OptimizationEngine.calculateMetricsSummary []⟩))).store =
        (true, some ⟨0, [], OptimizationEngine.calculateMetricsSummary []⟩) := by
  have hprior : OptimizationEngine.getStoredMetrics
      (kvPut (fun _ => none) OptimizationEngine.LAST_METRICS
        (.snapshot ⟨0, [], OptimizationEngine.calculateMetricsSummary []⟩)) =
      (true, some ⟨0, [], OptimizationEngine.calculateMetricsSummary []⟩) := rfl
  have H1 := (fetchMetrics_empty_no_snapshot_write [⟨"1", "C", "PAUSED"⟩]
    (fun _ => []) 7 (kvPut (fun _ => none) OptimizationEngine.LAST_METRICS
      (.snapshot ⟨0, [], OptimizationEngine.calculateMetricsSummary []⟩))).1
    (by rfl)
  have H2 := (fetchMetrics_empty_no_snapshot_write [⟨"2", "D", "ACTIVE"⟩]
    (fun _ => []) 7 (kvPut (fun _ => none) OptimizationEngine.LAST_METRICS
      (.snapshot ⟨0, [], OptimizationEngine.calculateMetricsSummary []⟩))).2
    (by rfl) (by rfl)
  exact ⟨H1.1, H1.2.2.2.trans hprior, H2.1, H2.2.2.2.trans hprior⟩

/-! ## C10: lookalike flow creates a missing source audience and derives from it -/

/-- A lookalike cache key never collides with an audience cache key: the two
namespaces have different prefixes. -/
theorem lookalike_key_ne_audience_key (s t : String) :
    ("lookalike:" ++ s) ≠ ("audience:" ++ t) := by
  intro h
  have h2 : ("lookalike:" ++ s).data = ("audience:" ++ t).data := by rw [h]
  rw [String.data_append, String.data_append] at h2
  rw [show "lookalike:".data = 'l' :: "ookalike:".data from rfl,
      show "audience:".data = 'a' :: "udience:".data from rfl] at h2
  simp only [List.cons_append, List.cons.injEq] at h2
  exact absurd h2.1 (by decide)

/-- Claim C10: when the source audience name is cached nowhere and matches no
entry of the remote listing, `createPhoneLookalikeAudience` falls back to
`findOrCreateCustomAudience`, which creates a brand-new custom audience; the
flow then proceeds to derive the lookalike from that newly created audience —
the derivation's create call carries the new audience's ID as its origin —
and succeeds instead of returning the source-not-found failure. -/
theorem createPhoneLookalikeAudience_creates_missing_source
    (name : String) (cache : KVStore String)
    (listing : List CustomAudienceResponse) (newId lkId : String)
    (hcache : cache ("audience:" ++ name) = none)
    (hlist : listing.find? (fun audience => audience.name == name) = none)
    (hnew : newId ≠ "") (hlk : lkId ≠ "")
    (hlkcache : cache (Lookalike.lookalikeKey
      (AudienceManager.lookalikeConfigName name) "RU" (1 / 100)) = none) :
    (AudienceManager.createPhoneLookalikeAudience name cache listing
        (some newId) (some lkId)).success = true
    ∧ (AudienceManager.createPhoneLookalikeAudience name cache listing
        (some newId) (some lkId)).audienceId = some lkId
    ∧ (AudienceManager.createPhoneLookalikeAudience name cache listing
        (some newId) (some lkId)).lkEvents =
        [.cacheGet (Lookalike.lookalikeKey
           (AudienceManager.lookalikeConfigName name) "RU" (1 / 100)),
         .remoteCreate newId,
         .cachePut (Lookalike.lookalikeKey
           (AudienceManager.lookalikeConfigName name) "RU" (1 / 100)) lkId] := by
  have hne : Lookalike.lookalikeKey (AudienceManager.lookalikeConfigName name)
      "RU" (1 / 100) ≠ "audience:" ++ name := by
    unfold Lookalike.lookalikeKey
    exact lookalike_key_ne_audience_key _ _
  have hr : FacebookApiLegacy.findOrCreateCustomAudience name cache listing
      (some newId) =
      ⟨.ok newId, kvPut cache ("audience:" ++ name) newId,
       [.cacheGet ("audience:" ++ name), .listCall, .createCall,
        .cachePut ("audience:" ++ name) newId]⟩ := by
    unfold FacebookApiLegacy.findOrCreateCustomAudience
    simp only [hcache, hlist, if_neg hnew]
  have hcache2 : kvPut (kvPut cache ("audience:" ++ name) newId)
      ("audience:" ++ name) newId
      (Lookalike.lookalikeKey (AudienceManager.lookalikeConfigName name)
        "RU" (1 / 100)) = none := by
    unfold kvPut
    rw [if_neg hne, if_neg hne, hlkcache]
  have hlkrun : Lookalike.createLookalikeAudience newId
      (AudienceManager.lookalikeConfigName name) "RU" (1 / 100)
      (kvPut (kvPut cache ("audience:" ++ name) newId)
        ("audience:" ++ name) newId) (some lkId) =
      (.ok lkId,
       [.cacheGet (Lookalike.lookalikeKey
          (AudienceManager.lookalikeConfigName name) "RU" (1 / 100)),
        .remoteCreate newId,
        .cachePut (Lookalike.lookalikeKey
          (AudienceManager.lookalikeConfigName name) "RU" (1 / 100)) lkId]) := by
    unfold Lookalike.createLookalikeAudience
    rw [if_neg (by norm_num)]
    simp only [hcache2, if_neg hlk]
  unfold AudienceManager.createPhoneLookalikeAudience
  simp only [hcache, hr]
  rw [if_neg hnew]
  unfold AudienceManager.createLookalikeAudienceInternal
  simp only [hlkrun]
  exact ⟨trivial, trivial, trivial⟩

/-- Witness for C10 at a concrete input: empty cache and empty listing, the
fallback resolve creates audience `newAud`, and the flow derives the lookalike
from `newAud`, succeeding with lookalike ID `lk1`. -/
theorem createPhoneLookalikeAudience_creates_missing_source_witness :
    (AudienceManager.createPhoneLookalikeAudience "Phone Audience"
        (fun _ => none) [] (some "newAud") (some "lk1")).success = true
    ∧ (AudienceManager.createPhoneLookalikeAudience "Phone Audience"
        (fun _ => none) [] (some "newAud") (some "lk1")).audienceId = some "lk1"
    ∧ (AudienceManager.createPhoneLookalikeAudience "Phone Audience"
        (fun _ => none) [] (some "newAud") (some "lk1")).lkEvents =
        [.cacheGet (Lookalike.lookalikeKey
           (AudienceManager.lookalikeConfigName "Phone Audience") "RU" (1 / 100)),
         .remoteCreate "newAud",
         .cachePut (Lookalike.lookalikeKey
           (AudienceManager.lookalikeConfigName "Phone Audience") "RU" (1 / 100))
           "lk1"] :=
  createPhoneLookalikeAudience_creates_missing_source "Phone Audience"
    (fun _ => none) [] "newAud" "lk1" rfl rfl (by decide) (by decide) rfl
